import Mathlib

/-!
Shallow embedding of `src/mail_cannon.py` (hackclub/mail-cannon-script).

Modelling conventions:
* A CSV row (a `csv.DictReader` record) is an association list from column
  name to `Option String`; a key that is absent from the list models a
  missing dict key (`row[k]` raises `KeyError`), a `none` value models a
  Python `None` cell (short rows are padded with `None` by `DictReader`).
* Python `int(s)` on a string is `pyInt`: surrounding whitespace is
  stripped, an optional sign is allowed, and the rest must be a non-empty
  digit string; otherwise `ValueError`, modelled as `none`.
* Functions that can raise inside the modelled fragment return `Option`
  (`none` = an exception escaped) or `Except String` when the source
  raises `SystemExit` with a message.
* File/network/log side effects are out of the embedding; the network is
  an oracle `net : Nat → SendOutcome` giving the outcome of the order
  request for the row with that row number.
-/

namespace MailCannon

/-- One CSV record: column name ↦ optional cell value. -/
abbrev Row := List (String × Option String)

/-- Python `row[k]` seen as a total lookup: `none` = key absent
(`KeyError`), `some v` = key present with value `v`. -/
def rowGet (row : Row) (k : String) : Option (Option String) :=
  (row.find? (fun p => p.1 == k)).map (fun p => p.2)

/-- Python `(row.get(k) or "")`: an absent key, a `None` value and an
empty string all collapse to `""`. -/
def rowGetD (row : Row) (k : String) : String :=
  ((rowGet row k).join).getD ""

/-- Whitespace removal from both ends of a character list. -/
def stripChars (l : List Char) : List Char :=
  ((l.dropWhile Char.isWhitespace).reverse.dropWhile Char.isWhitespace).reverse

/-- Python `s.strip()` (kept structural over the character list so that
it computes by kernel reduction). -/
def pyStrip (s : String) : String :=
  String.mk (stripChars s.data)

/-- Python `int(s)` for a string argument: strip whitespace, optional
sign, then a non-empty run of decimal digits; `none` models `ValueError`. -/
def pyInt (s : String) : Option Int :=
  let t := stripChars s.data
  let sign : Int := match t with | '-' :: _ => -1 | _ => 1
  let digits : List Char :=
    match t with
    | '-' :: rest => rest
    | '+' :: rest => rest
    | _ => t
  if digits ≠ [] ∧ digits.all Char.isDigit then
    some (sign * (digits.foldl (fun a c => a * 10 + (c.toNat - 48)) 0 : Nat))
  else
    none

/-- `ADDRESS_COLUMNS` from the source. -/
def ADDRESS_COLUMNS : List String :=
  ["first_name", "last_name", "email", "line_1", "line_2", "city",
   "state", "postal_code", "country"]

/-- `REQUIRED_ADDRESS_COLUMNS` from the source. -/
def REQUIRED_ADDRESS_COLUMNS : List String :=
  ["first_name", "email", "line_1", "city", "state", "postal_code", "country"]

/-- The `f"Row {row_num}: "` prefix shared by every validation message. -/
def rowTag (n : Nat) : String := "Row " ++ toString n ++ ": "

/-- `f"Row {row_num}: missing required field '{col}'"`. -/
def missingMsg (n : Nat) (col : String) : String :=
  rowTag n ++ "missing required field '" ++ col ++ "'"

/-- `f"Row {row_num}: negative quantity in '{sku}'"`. -/
def negQtyMsg (n : Nat) (sku : String) : String :=
  rowTag n ++ "negative quantity in '" ++ sku ++ "'"

/-- `f"Row {row_num}: non-integer value '{raw}' in '{sku}'"`. -/
def nonIntMsg (n : Nat) (raw sku : String) : String :=
  rowTag n ++ "non-integer value '" ++ raw ++ "' in '" ++ sku ++ "'"

/-- `f"Row {row_num}: no SKUs with quantity > 0"`. -/
def noItemsMsg (n : Nat) : String :=
  rowTag n ++ "no SKUs with quantity > 0"

/-- The errors the SKU loop of `validate_row` appends for one SKU column:
a blank (or absent) cell is skipped, a non-integer cell yields one
message, a negative integer yields one message. -/
def skuCellErrors (n : Nat) (row : Row) (sku : String) : List String :=
  let raw := pyStrip (rowGetD row sku)
  if raw = "" then []
  else
    match pyInt raw with
    | some q => if q < 0 then [negQtyMsg n sku] else []
    | none => [nonIntMsg n raw sku]

/-- Whether one SKU column sets `has_items` in `validate_row`: the cell is
non-blank and parses to an integer `> 0`. -/
def skuHasItem (row : Row) (sku : String) : Bool :=
  let raw := pyStrip (rowGetD row sku)
  if raw = "" then false
  else
    match pyInt raw with
    | some q => decide (0 < q)
    | none => false

/-- `validate_row(row, row_num, sku_names)`: required-field messages in
column order, then SKU-cell messages in SKU order, then the `no SKUs`
message when no cell has a positive quantity. -/
def validate_row (row : Row) (row_num : Nat) (sku_names : List String) :
    List String :=
  (REQUIRED_ADDRESS_COLUMNS.filterMap fun col =>
      if pyStrip (rowGetD row col) = "" then some (missingMsg row_num col) else none)
    ++ (sku_names.map (skuCellErrors row_num row)).flatten
    ++ (if sku_names.any (skuHasItem row) then [] else [noItemsMsg row_num])

/-- One `{"sku": ..., "quantity": ...}` entry of the payload's `contents`. -/
structure ContentLine where
  sku : String
  quantity : Int
  deriving DecidableEq

/-- The payload's `address` object; `none` models an absent key (the
source deletes `last_name`/`line_2` when blank). -/
structure Address where
  first_name : String
  last_name : Option String
  line_1 : String
  line_2 : Option String
  city : String
  state : String
  postal_code : String
  country : String
  deriving DecidableEq

/-- The payload's `warehouse_order` object. -/
structure WarehouseOrder where
  recipient_email : String
  tags : List String
  deriving DecidableEq

/-- The full request body built by `build_order_payload`. -/
structure OrderPayload where
  warehouse_order : WarehouseOrder
  address : Address
  contents : List ContentLine
  deriving DecidableEq

/-- `int(row[sku] or 0)`: `KeyError` if the key is absent; `None` and `""`
fall back to `0`; any other string goes through `int`, which may raise. -/
def cellQty (row : Row) (sku : String) : Option Int :=
  match rowGet row sku with
  | none => none
  | some none => some 0
  | some (some s) => if s = "" then some 0 else pyInt s

/-- `row[k].strip()`: `none` models `KeyError` (key absent) or
`AttributeError` (`None` cell). -/
def reqField (row : Row) (k : String) : Option String :=
  match rowGet row k with
  | some (some s) => some (pyStrip s)
  | _ => none

/-- `(row.get(k) or "").strip()`. -/
def optField (row : Row) (k : String) : String := pyStrip (rowGetD row k)

/-- The `contents` loop of `build_order_payload`: each SKU's quantity is
parsed (possibly raising) and kept only when `> 0`. -/
def buildContents (row : Row) (sku_names : List String) :
    Option (List ContentLine) :=
  (sku_names.mapM fun sku => (cellQty row sku).map fun q => (sku, q)).map
    fun l => l.filterMap fun p =>
      if 0 < p.2 then some (ContentLine.mk p.1 p.2) else none

/-- `build_order_payload(row, sku_names, tags)`; `none` models an escaped
exception (`KeyError` / `ValueError` / `AttributeError`). -/
def build_order_payload (row : Row) (sku_names tags : List String) :
    Option OrderPayload := do
  let contents ← buildContents row sku_names
  let email ← reqField row "email"
  let fn ← reqField row "first_name"
  let l1 ← reqField row "line_1"
  let city ← reqField row "city"
  let st ← reqField row "state"
  let pc ← reqField row "postal_code"
  let country ← reqField row "country"
  let ln := optField row "last_name"
  let l2 := optField row "line_2"
  some
    { warehouse_order := { recipient_email := email, tags := tags }
      address :=
        { first_name := fn
          last_name := if ln = "" then none else some ln
          line_1 := l1
          line_2 := if l2 = "" then none else some l2
          city := city
          state := st
          postal_code := pc
          country := country }
      contents := contents }

/-- The JSON object read from the config file, restricted to the four
keys the source inspects; `none` = key absent. -/
structure ConfigJson where
  theseus_base_url : Option String
  api_key : Option String
  tags : Option (List String)
  skus : Option (List String)
  deriving DecidableEq

/-- The validated configuration `load_config` hands back. -/
structure Config where
  theseus_base_url : String
  api_key : String
  tags : List String
  skus : List String
  deriving DecidableEq

/-- The `missing` list of `load_config` (required keys absent from the
config, in the order of `required_keys`). -/
def missingKeys (j : ConfigJson) : List String :=
  (if j.theseus_base_url.isNone then ["theseus_base_url"] else [])
    ++ (if j.api_key.isNone then ["api_key"] else [])
    ++ (if j.tags.isNone then ["tags"] else [])
    ++ (if j.skus.isNone then ["skus"] else [])

/-- `load_config`: `SystemExit` (modelled as `.error`) when a required key
is missing, when `skus` does not have exactly 12 entries, or when
`api_key` is the placeholder; otherwise the parsed config. -/
def load_config (j : ConfigJson) : Except String Config :=
  match j.theseus_base_url, j.api_key, j.tags, j.skus with
  | some burl, some key, some tg, some sk =>
    if sk.length ≠ 12 then
      .error ("Config must list exactly 12 SKUs, got " ++ toString sk.length)
    else if key = "YOUR_API_KEY_HERE" then
      .error "Set your real API key in config.json before running."
    else
      .ok { theseus_base_url := burl, api_key := key, tags := tg, skus := sk }
  | _, _, _, _ =>
    .error ("Config missing keys: " ++ String.intercalate ", " (missingKeys j))

/-- A parsed CSV file: the header row's field names plus the data rows in
file order (the data row at index `i` sits on file line `i + 2`, line 1
being the header). -/
structure CsvFile where
  headers : List String
  dataRows : List Row

/-- The filter of `read_orders_csv`: keep a row iff
`(r.get("email") or "").strip()` is truthy. -/
def keepRow (r : Row) : Bool :=
  decide (pyStrip (rowGetD r "email") ≠ "")

/-- The retained rows: data rows whose `email` cell is non-blank. -/
def retainedRows (csvRows : List Row) : List Row :=
  csvRows.filter keepRow

/-- `read_orders_csv`: `SystemExit` when an expected column is missing
from the header, else the retained rows. -/
def read_orders_csv (csv : CsvFile) (sku_names : List String) :
    Except String (List Row) :=
  let expected := ADDRESS_COLUMNS ++ sku_names
  let missing := expected.filter fun c => !(csv.headers.contains c)
  if missing ≠ [] then
    .error ("CSV is missing columns: " ++ String.intercalate ", " missing)
  else
    .ok (retainedRows csv.dataRows)

/-- A JSON object with string values, as the model of request/response
bodies' relevant fields. -/
abbrev JsonObj := List (String × String)

/-- The outcome of one `create_order` call, as seen by the `try` block of
`run`: a 2xx JSON body, an `HTTPError` (with the error body's JSON parse
when it succeeds, else the raw fallback text), a `URLError`, or any other
exception (`crash`), which the loop does not catch. -/
inductive SendOutcome where
  | success (body : JsonObj)
  | httpError (code : Nat) (parsedBody : Option JsonObj) (rawMsg : String)
  | urlError (reason : String)
  | crash (msg : String)

/-- Whether the outcome is an exception the send loop does not catch. -/
def isCrash : SendOutcome → Bool
  | .crash _ => true
  | _ => false

/-- The value stored in a failed result's `error` field: the HTTP branch
stores a dict, the transport branch stores `str(exc.reason)`. -/
inductive ErrField where
  | dict (d : JsonObj)
  | str (s : String)
  deriving DecidableEq

/-- One entry of the `results` list (`None` fields = key absent from the
dict the source builds). -/
structure RunResult where
  row : Nat
  email : String
  status : String
  order_id : Option String
  http_status : Option Nat
  error : Option ErrField
  response : Option JsonObj
  deriving DecidableEq

/-- `body.get(k)` on a response object. -/
def lookupStr (body : JsonObj) (k : String) : Option String :=
  (body.find? (fun p => p.1 == k)).map (fun p => p.2)

/-- Python `x or d` where `x` is `body.get(k)`: `None` and `""` are falsy. -/
def pyOrStr (x : Option String) (d : String) : String :=
  match x with
  | some s => if s = "" then d else s
  | none => d

/-- `resp_body.get("id") or resp_body.get("hc_id") or "unknown"`. -/
def orderIdFrom (body : JsonObj) : String :=
  pyOrStr (lookupStr body "id") (pyOrStr (lookupStr body "hc_id") "unknown")

/-- The `RunResult` one loop iteration appends for a given outcome;
`none` when the outcome is an uncaught exception. -/
def resultForRow (idx : Nat) (email : String) : SendOutcome → Option RunResult
  | .success body =>
    some { row := idx, email := email, status := "success",
           order_id := some (orderIdFrom body), http_status := none,
           error := none, response := some body }
  | .httpError code parsed raw =>
    some { row := idx, email := email, status := "failed",
           order_id := none, http_status := some code,
           error := some (.dict (parsed.getD [("raw", raw)])),
           response := none }
  | .urlError reason =>
    some { row := idx, email := email, status := "failed",
           order_id := none, http_status := none,
           error := some (.str reason), response := none }
  | .crash _ => none

/-- The `(succeeded, failed)` increments of one loop iteration. -/
def stepCounts : SendOutcome → Nat × Nat
  | .success _ => (1, 0)
  | .httpError _ _ _ => (0, 1)
  | .urlError _ => (0, 1)
  | .crash _ => (0, 0)

/-- The send loop of `run` over the numbered rows: produces the `results`
list and the two counters, or `none` when an uncaught exception aborts
the run (no summary is written then). -/
def sendLoop (sku_names tags : List String) (net : Nat → SendOutcome) :
    List (Nat × Row) → Option (List RunResult × Nat × Nat)
  | [] => some ([], 0, 0)
  | (idx, row) :: rest => do
    let email ← reqField row "email"
    let _payload ← build_order_payload row sku_names tags
    let r ← resultForRow idx email (net idx)
    let (rs, s, f) ← sendLoop sku_names tags net rest
    some (r :: rs, (stepCounts (net idx)).1 + s, (stepCounts (net idx)).2 + f)

/-- The dry-run loop: per row, the `(row number, email, content-line
count)` triple it logs; `none` when payload building raises. -/
def dryRunReports (sku_names tags : List String) :
    List (Nat × Row) → Option (List (Nat × String × Nat))
  | [] => some []
  | (idx, row) :: rest => do
    let payload ← build_order_payload row sku_names tags
    let email ← reqField row "email"
    let others ← dryRunReports sku_names tags rest
    some ((idx, email, payload.contents.length) :: others)

/-- The JSON results artifact (without the timestamp and path fields,
which are pure I/O). -/
structure RunSummary where
  total : Nat
  succeeded : Nat
  failed : Nat
  orders : List RunResult
  deriving DecidableEq

/-- How a run ends. `completed summary exitFailure` means the summary
artifact was written and then the process exited with failure iff
`exitFailure`; every other constructor means no summary was written. -/
inductive RunOutcome where
  | configError (msg : String)
  | inputError (msg : String)
  | validationFailed (errors : List String)
  | dryRunOk (reports : List (Nat × String × Nat))
  | crashed
  | completed (summary : RunSummary) (exitFailure : Bool)
  deriving DecidableEq

/-- Whether the process exit status is non-zero for an outcome
(`SystemExit` with a message, or an uncaught exception). -/
def exitsWithFailure : RunOutcome → Bool
  | .configError _ => true
  | .inputError _ => true
  | .validationFailed _ => true
  | .dryRunOk _ => false
  | .crashed => true
  | .completed _ ef => ef

/-- `enumerate(rows, start=2)` (row 1 is the header). -/
def enumRows (rows : List Row) : List (Nat × Row) :=
  rows.enumFrom 2

/-- The `all_errors` accumulation of `run`. -/
def allRowErrors (rows : List Row) (sku_names : List String) : List String :=
  ((enumRows rows).map fun p => validate_row p.2 p.1 sku_names).flatten

/-- The `run` orchestrator: config, CSV read, validation of every row,
then either the dry-run report loop or the send loop followed by the
summary and the final exit-status decision. -/
def runModel (cfgJ : ConfigJson) (csv : CsvFile) (dry_run : Bool)
    (net : Nat → SendOutcome) : RunOutcome :=
  match load_config cfgJ with
  | .error m => .configError m
  | .ok cfg =>
    match read_orders_csv csv cfg.skus with
    | .error m => .inputError m
    | .ok rows =>
      if allRowErrors rows cfg.skus ≠ [] then
        .validationFailed (allRowErrors rows cfg.skus)
      else if dry_run then
        match dryRunReports cfg.skus cfg.tags (enumRows rows) with
        | none => .crashed
        | some reports => .dryRunOk reports
      else
        match sendLoop cfg.skus cfg.tags net (enumRows rows) with
        | none => .crashed
        | some (results, s, f) =>
          .completed
            { total := rows.length, succeeded := s, failed := f,
              orders := results }
            (decide (f ≠ 0))

/-! ### Helper lemmas -/

/-- Contents built by `buildContents` all carry a positive quantity. -/
lemma buildContents_pos {row : Row} {sku_names : List String}
    {cs : List ContentLine} (h : buildContents row sku_names = some cs) :
    ∀ c ∈ cs, 0 < c.quantity := by
  unfold buildContents at h
  cases hm : sku_names.mapM fun sku => (cellQty row sku).map fun q => (sku, q) with
  | none => rw [hm] at h; simp at h
  | some l =>
    rw [hm] at h
    simp only [Option.map_some', Option.some.injEq] at h
    subst h
    intro c hc
    rcases List.mem_filterMap.mp hc with ⟨p, _, hif⟩
    by_cases hq : 0 < p.2
    · simp only [hq, if_pos] at hif
      cases hif
      exact hq
    · simp [hq] at hif

/-- `sendLoop` results with status `"success"` always carry an order id. -/
lemma sendLoop_success_isSome (sku_names tags : List String)
    (net : Nat → SendOutcome) :
    ∀ (pairs : List (Nat × Row)) (rs : List RunResult) (s f : Nat),
      sendLoop sku_names tags net pairs = some (rs, s, f) →
      ∀ r ∈ rs, r.status = "success" → r.order_id.isSome = true := by
  intro pairs
  induction pairs with
  | nil =>
    intro rs s f h r hr _
    simp only [sendLoop, Option.some.injEq, Prod.mk.injEq] at h
    obtain ⟨h1, -, -⟩ := h
    subst h1
    cases hr
  | cons hd tl ih =>
    intro rs s f h r hr hstat
    obtain ⟨idx, row⟩ := hd
    simp only [sendLoop, Option.bind_eq_bind, Option.bind_eq_some,
      Option.some.injEq] at h
    obtain ⟨email, _, _, _, r0, hr0, ⟨rs', s', f'⟩, hrec, heq⟩ := h
    have hrs : rs = r0 :: rs' := by
      have := heq.symm
      cases this
      rfl
    rw [hrs] at hr
    rcases List.mem_cons.mp hr with rfl | hmem
    · cases ho : net idx with
      | success body => rw [ho] at hr0; cases hr0; rfl
      | httpError code parsed raw =>
        rw [ho] at hr0; cases hr0
        exact absurd hstat (by decide : ("failed" : String) ≠ "success")
      | urlError reason =>
        rw [ho] at hr0; cases hr0
        exact absurd hstat (by decide : ("failed" : String) ≠ "success")
      | crash m => rw [ho] at hr0; cases hr0
    · exact ih rs' s' f' hrec r hmem hstat

/-! ### C1 -/

/-- A row whose required fields are all filled, whose first SKU cell is
`"1"` and whose second SKU cell is a single space. -/
def wsRow : Row :=
  [("first_name", some "A"), ("last_name", some ""), ("email", some "a@b.c"),
   ("line_1", some "L"), ("line_2", some ""), ("city", some "C"),
   ("state", some "S"), ("postal_code", some "P"), ("country", some "X"),
   ("sku_a", some "1"), ("sku_b", some " ")]

/-- The SKU column names of the `wsRow` fixture. -/
def wsSkus : List String := ["sku_a", "sku_b"]

/-- C1: the claim fails on the code. `validate_row` accepts `wsRow` (a
whitespace-only quantity cell is stripped to blank and skipped), yet
`build_order_payload` evaluates `int(row["sku_b"] or 0)` = `int(" ")`,
which raises `ValueError` (modelled as `none`): the build does not
complete, so no payload — with or without non-empty contents — is
returned. -/
theorem validated_row_crashes_payload_builder :
    validate_row wsRow 2 wsSkus = [] ∧
    build_order_payload wsRow wsSkus [] = none := by decide

/-! ### C7 -/

/-- C7: whenever `build_order_payload` completes, every `contents` entry
has quantity `> 0`, and the `last_name` / `line_2` keys are absent from
the address object whenever the source cell is blank after trimming. -/
theorem payload_positive_contents_and_blank_optionals_absent
    (row : Row) (sku_names tags : List String) (p : OrderPayload)
    (h : build_order_payload row sku_names tags = some p) :
    (∀ c ∈ p.contents, 0 < c.quantity) ∧
    (optField row "last_name" = "" → p.address.last_name = none) ∧
    (optField row "line_2" = "" → p.address.line_2 = none) := by
  simp only [build_order_payload, Option.bind_eq_bind, Option.bind_eq_some,
    Option.some.injEq] at h
  obtain ⟨cs, hcs, email, _, fn, _, l1, _, city, _, st, _, pc, _, country, _,
    hp⟩ := h
  subst hp
  refine ⟨buildContents_pos hcs, fun hln => ?_, fun hl2 => ?_⟩
  · simp [hln]
  · simp [hl2]

/-- Witness for C7 at a concrete row. -/
theorem payload_positive_contents_witness :
    (∀ c ∈ (OrderPayload.mk ⟨"a@b.c", []⟩
        ⟨"A", none, "L", none, "C", "S", "P", "X"⟩
        [⟨"sku_a", 1⟩]).contents, 0 < c.quantity) ∧
    ((OrderPayload.mk ⟨"a@b.c", []⟩
        ⟨"A", none, "L", none, "C", "S", "P", "X"⟩
        [⟨"sku_a", 1⟩]).address.last_name = none) := by
  have h := payload_positive_contents_and_blank_optionals_absent
    wsRow ["sku_a"] []
    (OrderPayload.mk ⟨"a@b.c", []⟩ ⟨"A", none, "L", none, "C", "S", "P", "X"⟩
      [⟨"sku_a", 1⟩]) (by decide)
  exact ⟨h.1, h.2.1 (by decide)⟩

/-! ### C10 -/

/-- C10: a successful send's `RunResult` always carries an `order_id`,
whose value is the body's non-empty `"id"`, else the body's non-empty
`"hc_id"`, else the literal `"unknown"`; and every `"success"` result the
send loop ever produces has an `order_id`. -/
theorem success_result_order_id (idx : Nat) (email : String) (body : JsonObj)
    (r : RunResult) (h : resultForRow idx email (.success body) = some r) :
    r.order_id.isSome = true ∧
    (∀ v, lookupStr body "id" = some v → v ≠ "" → r.order_id = some v) ∧
    ((lookupStr body "id" = none ∨ lookupStr body "id" = some "") →
      ∀ w, lookupStr body "hc_id" = some w → w ≠ "" → r.order_id = some w) ∧
    ((lookupStr body "id" = none ∨ lookupStr body "id" = some "") →
      (lookupStr body "hc_id" = none ∨ lookupStr body "hc_id" = some "") →
      r.order_id = some "unknown") ∧
    (∀ (sku_names tags : List String) (net : Nat → SendOutcome)
        (pairs : List (Nat × Row)) (rs : List RunResult) (s f : Nat),
      sendLoop sku_names tags net pairs = some (rs, s, f) →
      ∀ r' ∈ rs, r'.status = "success" → r'.order_id.isSome = true) := by
  simp only [resultForRow, Option.some.injEq] at h
  subst h
  refine ⟨rfl, ?_, ?_, ?_, ?_⟩
  · intro v hv hne
    simp [orderIdFrom, pyOrStr, hv, hne]
  · rintro (hid | hid) w hw hne <;>
      simp [orderIdFrom, pyOrStr, hid, hw, hne]
  · rintro (hid | hid) (hhc | hhc) <;>
      simp [orderIdFrom, pyOrStr, hid, hhc]
  · exact fun a b c d e g k hk => sendLoop_success_isSome a b c d e g k hk

/-- Witness for C10: a body carrying `id = "ord_1"`. -/
theorem success_result_order_id_witness :
    ({ row := 2, email := "a@b.c", status := "success",
       order_id := some "ord_1", http_status := none, error := none,
       response := some [("id", "ord_1")] } : RunResult).order_id
      = some "ord_1" :=
  (success_result_order_id 2 "a@b.c" [("id", "ord_1")] _ rfl).2.1
    "ord_1" rfl (by decide)

/-! ### C8 -/

/-- C8: `load_config` fails exactly when a required key is absent, `skus`
does not have 12 entries, or `api_key` is the placeholder; a success
returns the parsed values; and a failure makes the run end in
`configError` independently of the CSV (so before any CSV reading). -/
theorem load_config_spec (j : ConfigJson) :
    ((∃ m, load_config j = .error m) ↔
      (j.theseus_base_url.isNone ∨ j.api_key.isNone ∨ j.tags.isNone ∨
        j.skus.isNone ∨ (∃ sk, j.skus = some sk ∧ sk.length ≠ 12) ∨
        j.api_key = some "YOUR_API_KEY_HERE")) ∧
    (∀ c, load_config j = .ok c →
      j.theseus_base_url = some c.theseus_base_url ∧
      j.api_key = some c.api_key ∧ j.tags = some c.tags ∧
      j.skus = some c.skus) ∧
    (∀ m, load_config j = .error m →
      ∀ (csv csv' : CsvFile) (dry : Bool) (net : Nat → SendOutcome),
        runModel j csv dry net = .configError m ∧
        runModel j csv dry net = runModel j csv' dry net) := by
  obtain ⟨b, k, t, sk⟩ := j
  refine ⟨?_, ?_, ?_⟩
  · cases b with
    | none => simp [load_config]
    | some burl =>
      cases k with
      | none => simp [load_config]
      | some key =>
        cases t with
        | none => simp [load_config]
        | some tg =>
          cases sk with
          | none => simp [load_config]
          | some skus =>
            by_cases hl : skus.length = 12
            · by_cases hk : key = "YOUR_API_KEY_HERE"
              · simp [load_config, hl, hk]
              · simp [load_config, hl, hk]
            · simp [load_config, hl]
  · intro c hc
    cases b with
    | none => simp [load_config] at hc
    | some burl =>
      cases k with
      | none => simp [load_config] at hc
      | some key =>
        cases t with
        | none => simp [load_config] at hc
        | some tg =>
          cases sk with
          | none => simp [load_config] at hc
          | some skus =>
            simp only [load_config] at hc
            by_cases hl : skus.length ≠ 12
            · rw [if_pos hl] at hc; exact Except.noConfusion hc
            · rw [if_neg hl] at hc
              by_cases hk : key = "YOUR_API_KEY_HERE"
              · rw [if_pos hk] at hc; exact Except.noConfusion hc
              · rw [if_neg hk] at hc
                cases hc
                exact ⟨rfl, rfl, rfl, rfl⟩
  · intro m hm csv csv' dry net
    constructor <;> simp [runModel, hm]

/-- A config whose `skus` list has 11 entries. -/
def elevenSkuCfg : ConfigJson :=
  { theseus_base_url := some "https://theseus.example", api_key := some "k",
    tags := some ["t"],
    skus := some ["a", "b", "c", "d", "e", "f", "g", "h", "i", "j", "k"] }

/-- Witness for C8: with 11 SKUs, `load_config` fails and the run ends in
`configError` for every CSV, dry-run flag and network. -/
theorem load_config_spec_witness :
    (∃ m, load_config elevenSkuCfg = .error m) ∧
    (∀ m, load_config elevenSkuCfg = .error m →
      ∀ (csv csv' : CsvFile) (dry : Bool) (net : Nat → SendOutcome),
        runModel elevenSkuCfg csv dry net = .configError m ∧
        runModel elevenSkuCfg csv dry net = runModel elevenSkuCfg csv' dry net) :=
  ⟨((load_config_spec elevenSkuCfg).1).mpr
      (by simp [elevenSkuCfg]),
    (load_config_spec elevenSkuCfg).2.2⟩

/-- The counters of a completed send loop add up to the number of results,
which is the number of rows handed to the loop. -/
lemma sendLoop_counts (sku_names tags : List String) (net : Nat → SendOutcome) :
    ∀ (pairs : List (Nat × Row)) (rs : List RunResult) (s f : Nat),
      sendLoop sku_names tags net pairs = some (rs, s, f) →
      s + f = rs.length ∧ rs.length = pairs.length := by
  intro pairs
  induction pairs with
  | nil =>
    intro rs s f h
    simp only [sendLoop, Option.some.injEq, Prod.mk.injEq] at h
    obtain ⟨h1, h2, h3⟩ := h
    subst h1; subst h2; subst h3
    simp
  | cons hd tl ih =>
    intro rs s f h
    obtain ⟨idx, row⟩ := hd
    simp only [sendLoop, Option.bind_eq_bind, Option.bind_eq_some,
      Option.some.injEq] at h
    obtain ⟨email, _, pl, _, r0, hr0, ⟨rs', s', f'⟩, hrec, heq⟩ := h
    have heq' := heq.symm
    cases heq'
    obtain ⟨ih1, ih2⟩ := ih rs' s' f' hrec
    have hsum : (stepCounts (net idx)).1 + (stepCounts (net idx)).2 = 1 := by
      cases ho : net idx with
      | success b => rfl
      | httpError c p r => rfl
      | urlError r => rfl
      | crash m => rw [ho] at hr0; exact Option.noConfusion hr0
    constructor
    · simp only [List.length_cons]
      omega
    · simp only [List.length_cons, ih2]

/-- When every row's email and payload evaluate and no outcome is an
uncaught exception, the send loop completes. -/
lemma sendLoop_completes (sku_names tags : List String)
    (net : Nat → SendOutcome) :
    ∀ (pairs : List (Nat × Row)),
      (∀ p ∈ pairs, (reqField p.2 "email").isSome ∧
        (build_order_payload p.2 sku_names tags).isSome ∧
        isCrash (net p.1) = false) →
      ∃ rs s f, sendLoop sku_names tags net pairs = some (rs, s, f) := by
  intro pairs
  induction pairs with
  | nil => exact fun _ => ⟨[], 0, 0, rfl⟩
  | cons hd tl ih =>
    intro hall
    obtain ⟨idx, row⟩ := hd
    obtain ⟨hem, hbp, hcr⟩ := hall (idx, row) (List.mem_cons_self _ _)
    obtain ⟨email, hemail⟩ := Option.isSome_iff_exists.mp hem
    obtain ⟨pl, hpl⟩ := Option.isSome_iff_exists.mp hbp
    obtain ⟨rs, s, f, hrec⟩ :=
      ih (fun p hp => hall p (List.mem_cons_of_mem _ hp))
    have hres : ∃ r0, resultForRow idx email (net idx) = some r0 := by
      cases ho : net idx with
      | success b => exact ⟨_, rfl⟩
      | httpError c p r => exact ⟨_, rfl⟩
      | urlError r => exact ⟨_, rfl⟩
      | crash m => rw [ho] at hcr; exact absurd hcr (by simp [isCrash])
    obtain ⟨r0, hr0⟩ := hres
    refine ⟨r0 :: rs, (stepCounts (net idx)).1 + s,
      (stepCounts (net idx)).2 + f, ?_⟩
    simp [sendLoop, hemail, hpl, hr0, hrec]

/-! ### C2 -/

/-- C2: when any row fails validation, the run ends in
`validationFailed` carrying every collected error, with a failure exit
status, and the outcome does not depend on the network oracle at all (no
order is sent for any row, including the individually valid ones). -/
theorem validation_errors_abort_before_send (cfgJ : ConfigJson)
    (csv : CsvFile) (cfg : Config) (rows : List Row) (dry : Bool)
    (net net' : Nat → SendOutcome)
    (hc : load_config cfgJ = .ok cfg)
    (hr : read_orders_csv csv cfg.skus = .ok rows)
    (hv : allRowErrors rows cfg.skus ≠ []) :
    runModel cfgJ csv dry net = .validationFailed (allRowErrors rows cfg.skus) ∧
    exitsWithFailure (runModel cfgJ csv dry net) = true ∧
    runModel cfgJ csv dry net = runModel cfgJ csv dry net' := by
  have h1 : runModel cfgJ csv dry net =
      .validationFailed (allRowErrors rows cfg.skus) := by
    simp only [runModel, hc, hr]
    rw [if_pos hv]
  have h2 : runModel cfgJ csv dry net' =
      .validationFailed (allRowErrors rows cfg.skus) := by
    simp only [runModel, hc, hr]
    rw [if_pos hv]
  exact ⟨h1, by rw [h1]; rfl, by rw [h1, h2]⟩

/-- The 12 SKU column names of the fixtures. -/
def skus12 : List String :=
  ["s01", "s02", "s03", "s04", "s05", "s06", "s07", "s08", "s09", "s10",
   "s11", "s12"]

/-- A valid config fixture. -/
def cfgFix : ConfigJson :=
  { theseus_base_url := some "https://theseus.example",
    api_key := some "key-1", tags := some ["hq-mail"], skus := some skus12 }

/-- The parsed form of `cfgFix`. -/
def cfgFixParsed : Config :=
  { theseus_base_url := "https://theseus.example", api_key := "key-1",
    tags := ["hq-mail"], skus := skus12 }

/-- A row that passes validation: all required fields, one SKU line. -/
def goodRow : Row :=
  [("first_name", some "Ada"), ("last_name", some "L"),
   ("email", some "ada@example.org"), ("line_1", some "1 Way"),
   ("line_2", some ""), ("city", some "Rome"), ("state", some "RM"),
   ("postal_code", some "00100"), ("country", some "IT"),
   ("s01", some "1"), ("s02", some "0"), ("s03", some ""),
   ("s04", some ""), ("s05", some ""), ("s06", some ""), ("s07", some ""),
   ("s08", some ""), ("s09", some ""), ("s10", some ""), ("s11", some ""),
   ("s12", some "")]

/-- `goodRow` with a blank `city`, so validation fails on it. -/
def blankCityRow : Row :=
  [("first_name", some "Ada"), ("last_name", some "L"),
   ("email", some "ada@example.org"), ("line_1", some "1 Way"),
   ("line_2", some ""), ("city", some " "), ("state", some "RM"),
   ("postal_code", some "00100"), ("country", some "IT"),
   ("s01", some "1"), ("s02", some "0"), ("s03", some ""),
   ("s04", some ""), ("s05", some ""), ("s06", some ""), ("s07", some ""),
   ("s08", some ""), ("s09", some ""), ("s10", some ""), ("s11", some ""),
   ("s12", some "")]

/-- A CSV fixture with two valid rows. -/
def csvFix : CsvFile :=
  { headers := ADDRESS_COLUMNS ++ skus12, dataRows := [goodRow, goodRow] }

/-- A CSV fixture whose second row fails validation. -/
def csvBad : CsvFile :=
  { headers := ADDRESS_COLUMNS ++ skus12,
    dataRows := [goodRow, blankCityRow] }

/-- A network oracle: success for row 2, HTTP 422 for every other row. -/
def netFix : Nat → SendOutcome := fun i =>
  if i = 2 then .success [("id", "ord_1")]
  else .httpError 422 (some [("error", "bad address")]) "HTTP Error 422"

/-- A network oracle that always fails at the transport level. -/
def netDown : Nat → SendOutcome := fun _ => .urlError "unreachable"

/-- Witness for C2 on the fixtures. -/
theorem validation_errors_abort_before_send_witness :
    runModel cfgFix csvBad false netFix =
      .validationFailed
        (allRowErrors [goodRow, blankCityRow] cfgFixParsed.skus) ∧
    exitsWithFailure (runModel cfgFix csvBad false netFix) = true ∧
    runModel cfgFix csvBad false netFix =
      runModel cfgFix csvBad false netDown :=
  validation_errors_abort_before_send cfgFix csvBad cfgFixParsed
    [goodRow, blankCityRow] false netFix netDown rfl rfl (by decide)

/-! ### C3 -/

/-- C3: whenever the run writes a summary, `succeeded + failed = total`
and `total` is the length of the per-row `orders` list. -/
theorem summary_counts_consistent (cfgJ : ConfigJson) (csv : CsvFile)
    (dry : Bool) (net : Nat → SendOutcome) (s : RunSummary) (ef : Bool)
    (h : runModel cfgJ csv dry net = .completed s ef) :
    s.succeeded + s.failed = s.total ∧ s.total = s.orders.length := by
  cases hc : load_config cfgJ with
  | error m =>
    simp only [runModel, hc] at h
    exact RunOutcome.noConfusion h
  | ok cfg =>
    simp only [runModel, hc] at h
    cases hr : read_orders_csv csv cfg.skus with
    | error m =>
      rw [hr] at h
      exact RunOutcome.noConfusion h
    | ok rows =>
      simp only [hr] at h
      by_cases hv : allRowErrors rows cfg.skus ≠ []
      · rw [if_pos hv] at h; exact RunOutcome.noConfusion h
      · rw [if_neg hv] at h
        cases dry with
        | true =>
          rw [if_pos rfl] at h
          cases hd : dryRunReports cfg.skus cfg.tags (enumRows rows) with
          | none => simp only [hd] at h; exact RunOutcome.noConfusion h
          | some reports =>
            simp only [hd] at h
            exact RunOutcome.noConfusion h
        | false =>
          rw [if_neg (by simp)] at h
          cases hs : sendLoop cfg.skus cfg.tags net (enumRows rows) with
          | none => simp only [hs] at h; exact RunOutcome.noConfusion h
          | some v =>
            obtain ⟨rs, s', f'⟩ := v
            simp only [hs] at h
            injection h with hsum hef
            subst hsum
            obtain ⟨h1, h2⟩ :=
              sendLoop_counts cfg.skus cfg.tags net (enumRows rows) rs s' f' hs
            have hlen : (enumRows rows).length = rows.length := by
              simp [enumRows]
            constructor
            · dsimp only
              omega
            · dsimp only
              omega

/-- The summary the fixture run produces. -/
def fixSummary : RunSummary :=
  { total := 2, succeeded := 1, failed := 1,
    orders :=
      [{ row := 2, email := "ada@example.org", status := "success",
         order_id := some "ord_1", http_status := none, error := none,
         response := some [("id", "ord_1")] },
       { row := 3, email := "ada@example.org", status := "failed",
         order_id := none, http_status := some 422,
         error := some (.dict [("error", "bad address")]),
         response := none }] }

/-- Witness for C3 on the fixture run. -/
theorem summary_counts_consistent_witness :
    fixSummary.succeeded + fixSummary.failed = fixSummary.total ∧
    fixSummary.total = fixSummary.orders.length :=
  summary_counts_consistent cfgFix csvFix false netFix fixSummary true
    (by decide)

/-! ### C4 -/

/-- C4: when every send outcome is an ordinary success, HTTP error or
transport error (no uncaught exception) and every row's payload builds,
the run completes: every retained row yields a `RunResult` in the written
summary, and only then does the process exit, with failure exactly when
some row failed. -/
theorem send_failures_do_not_abort (cfgJ : ConfigJson) (csv : CsvFile)
    (net : Nat → SendOutcome) (cfg : Config) (rows : List Row)
    (hc : load_config cfgJ = .ok cfg)
    (hr : read_orders_csv csv cfg.skus = .ok rows)
    (hv : allRowErrors rows cfg.skus = [])
    (hrows : ∀ p ∈ enumRows rows, (reqField p.2 "email").isSome ∧
      (build_order_payload p.2 cfg.skus cfg.tags).isSome ∧
      isCrash (net p.1) = false) :
    ∃ s : RunSummary,
      runModel cfgJ csv false net = .completed s (decide (s.failed ≠ 0)) ∧
      s.orders.length = rows.length ∧ s.total = rows.length ∧
      exitsWithFailure (runModel cfgJ csv false net) =
        decide (s.failed ≠ 0) := by
  obtain ⟨rs, s', f', hloop⟩ :=
    sendLoop_completes cfg.skus cfg.tags net (enumRows rows) hrows
  obtain ⟨h1, h2⟩ :=
    sendLoop_counts cfg.skus cfg.tags net (enumRows rows) rs s' f' hloop
  have hlen : (enumRows rows).length = rows.length := by simp [enumRows]
  have hrun : runModel cfgJ csv false net =
      .completed
        { total := rows.length, succeeded := s', failed := f', orders := rs }
        (decide (f' ≠ 0)) := by
    simp only [runModel, hc]
    simp only [hr]
    rw [if_neg (not_not_intro hv)]
    rw [if_neg (by simp : ¬(false = true))]
    simp only [hloop]
  refine ⟨{ total := rows.length, succeeded := s', failed := f',
            orders := rs }, hrun, ?_, rfl, ?_⟩
  · dsimp only
    omega
  · rw [hrun]
    rfl

/-- Witness for C4 on the fixture run (one success, one HTTP failure). -/
theorem send_failures_do_not_abort_witness :
    ∃ s : RunSummary,
      runModel cfgFix csvFix false netFix =
        .completed s (decide (s.failed ≠ 0)) ∧
      s.orders.length = 2 ∧ s.total = 2 ∧
      exitsWithFailure (runModel cfgFix csvFix false netFix) =
        decide (s.failed ≠ 0) :=
  send_failures_do_not_abort cfgFix csvFix netFix cfgFixParsed
    [goodRow, goodRow] rfl rfl (by decide) (by decide)

/-! ### C5 -/

/-- `pyInt` rejects the empty string. -/
lemma pyInt_empty : pyInt "" = none := rfl

/-- A row with all required fields, one positive SKU quantity, and one
non-integer SKU cell. -/
def mixedRow : Row :=
  [("first_name", some "A"), ("email", some "a@b.c"), ("line_1", some "L"),
   ("city", some "C"), ("state", some "S"), ("postal_code", some "P"),
   ("country", some "X"), ("skuA", some "1"), ("skuB", some "z")]

/-- The SKU column names of the `mixedRow` fixture. -/
def mixedSkus : List String := ["skuA", "skuB"]

/-- C5 counterexample: `mixedRow` satisfies the claim's hypotheses (every
required field non-blank after trimming, at least one SKU cell holding a
positive integer) yet `validate_row` reports an error for the non-integer
cell `"z"`, so the returned list is not empty. -/
theorem positive_sku_row_not_always_valid :
    (∀ col ∈ REQUIRED_ADDRESS_COLUMNS, pyStrip (rowGetD mixedRow col) ≠ "") ∧
    ("skuA" ∈ mixedSkus ∧
      pyInt (pyStrip (rowGetD mixedRow "skuA")) = some 1 ∧ (0 : Int) < 1) ∧
    validate_row mixedRow 2 mixedSkus ≠ [] := by decide

/-- C5 (amended): for rows in which every required field is non-blank
after trimming, every non-blank SKU cell parses as a non-negative
integer, and some SKU cell parses as a positive integer, `validate_row`
returns an empty error list. -/
theorem validate_row_empty_of_wellformed (row : Row) (n : Nat)
    (sku_names : List String)
    (hreq : ∀ col ∈ REQUIRED_ADDRESS_COLUMNS, pyStrip (rowGetD row col) ≠ "")
    (hcells : ∀ sku ∈ sku_names, pyStrip (rowGetD row sku) = "" ∨
      ((pyInt (pyStrip (rowGetD row sku))).isSome = true ∧
        0 ≤ (pyInt (pyStrip (rowGetD row sku))).getD 0))
    (hpos : ∃ sku ∈ sku_names,
      0 < (pyInt (pyStrip (rowGetD row sku))).getD 0) :
    validate_row row n sku_names = [] := by
  have hA : (REQUIRED_ADDRESS_COLUMNS.filterMap fun col =>
      if pyStrip (rowGetD row col) = "" then some (missingMsg n col)
      else none) = [] := by
    rw [List.filterMap_eq_nil_iff]
    intro col hcol
    rw [if_neg (hreq col hcol)]
  have hB : (sku_names.map (skuCellErrors n row)).flatten = [] := by
    rw [List.flatten_eq_nil_iff]
    intro l hl
    rcases List.mem_map.mp hl with ⟨sku, hsku, rfl⟩
    unfold skuCellErrors
    rcases hcells sku hsku with hblank | ⟨hsome, hge⟩
    · rw [if_pos hblank]
    · obtain ⟨q, hq⟩ := Option.isSome_iff_exists.mp hsome
      have hraw : pyStrip (rowGetD row sku) ≠ "" := by
        intro he
        rw [he, pyInt_empty] at hq
        exact Option.noConfusion hq
      rw [hq] at hge
      simp only [Option.getD_some] at hge
      rw [if_neg hraw]
      simp only [hq]
      rw [if_neg (by omega : ¬ q < 0)]
  have hC : sku_names.any (skuHasItem row) = true := by
    rcases hpos with ⟨sku, hsku, hgt⟩
    cases hq : pyInt (pyStrip (rowGetD row sku)) with
    | none => rw [hq] at hgt; simp at hgt
    | some q =>
      rw [hq] at hgt
      simp only [Option.getD_some] at hgt
      have hraw : pyStrip (rowGetD row sku) ≠ "" := by
        intro he
        rw [he, pyInt_empty] at hq
        exact Option.noConfusion hq
      refine List.any_eq_true.mpr ⟨sku, hsku, ?_⟩
      unfold skuHasItem
      rw [if_neg hraw]
      simp only [hq]
      exact decide_eq_true hgt
  unfold validate_row
  rw [hA, hB, if_pos hC]
  rfl

/-- Witness for C5's amended theorem on a fully well-formed row. -/
theorem validate_row_empty_of_wellformed_witness :
    validate_row goodRow 2 skus12 = [] :=
  validate_row_empty_of_wellformed goodRow 2 skus12 (by decide) (by decide)
    (by decide)

/-! ### C6 -/

/-- Cancelling the shared `Row {n}: ` prefix of two equal messages. -/
lemma rowTag_cancel {n : Nat} {a b : String}
    (h : rowTag n ++ a = rowTag n ++ b) : a = b := by
  have h' := congrArg String.data h
  simp only [String.data_append] at h'
  exact String.ext (List.append_cancel_left h')

/-- `missingMsg` in prefix-plus-suffix form. -/
lemma missingMsg_eq (n : Nat) (c : String) :
    missingMsg n c =
      rowTag n ++ ("missing required field '" ++ (c ++ "'")) := by
  simp [missingMsg, String.append_assoc]

/-- `negQtyMsg` in prefix-plus-suffix form. -/
lemma negQtyMsg_eq (n : Nat) (s : String) :
    negQtyMsg n s = rowTag n ++ ("negative quantity in '" ++ (s ++ "'")) := by
  simp [negQtyMsg, String.append_assoc]

/-- `nonIntMsg` in prefix-plus-suffix form. -/
lemma nonIntMsg_eq (n : Nat) (raw s : String) :
    nonIntMsg n raw s =
      rowTag n ++ ("non-integer value '" ++ (raw ++ ("' in '" ++ (s ++ "'")))) := by
  simp [nonIntMsg, String.append_assoc]

/-- A missing-field message never coincides with a negative-quantity
message (their texts differ right after the shared prefix). -/
lemma missingMsg_ne_negQtyMsg (n : Nat) (c s : String) :
    missingMsg n c ≠ negQtyMsg n s := by
  intro h
  rw [missingMsg_eq, negQtyMsg_eq] at h
  have h2 := congrArg String.data (rowTag_cancel h)
  simp only [String.data_append] at h2
  simp only [List.cons_append] at h2
  injection h2 with hhead _
  exact absurd hhead (by decide)

/-- A missing-field message never coincides with a non-integer message. -/
lemma missingMsg_ne_nonIntMsg (n : Nat) (c raw s : String) :
    missingMsg n c ≠ nonIntMsg n raw s := by
  intro h
  rw [missingMsg_eq, nonIntMsg_eq] at h
  have h2 := congrArg String.data (rowTag_cancel h)
  simp only [String.data_append] at h2
  simp only [List.cons_append] at h2
  injection h2 with hhead _
  exact absurd hhead (by decide)

/-- A missing-field message never coincides with the no-items message. -/
lemma missingMsg_ne_noItemsMsg (n : Nat) (c : String) :
    missingMsg n c ≠ noItemsMsg n := by
  intro h
  rw [missingMsg_eq, noItemsMsg] at h
  have h2 := congrArg String.data (rowTag_cancel h)
  simp only [String.data_append] at h2
  simp only [List.cons_append] at h2
  injection h2 with hhead _
  exact absurd hhead (by decide)

/-- Two missing-field messages with the same row number agree only on the
same column. -/
lemma missingMsg_inj {n : Nat} {c₁ c₂ : String}
    (h : missingMsg n c₁ = missingMsg n c₂) : c₁ = c₂ := by
  rw [missingMsg_eq, missingMsg_eq] at h
  have h2 := congrArg String.data (rowTag_cancel h)
  simp only [String.data_append] at h2
  have h3 := List.append_cancel_left h2
  exact String.ext (List.append_cancel_right h3)

/-- The missing-field filter over columns not containing `col` never
produces `col`'s message. -/
lemma count_missing_zero_of_not_mem (row : Row) (n : Nat) (col : String) :
    ∀ (cols : List String), col ∉ cols →
      ((cols.filterMap fun c =>
          if pyStrip (rowGetD row c) = "" then some (missingMsg n c)
          else none).count (missingMsg n col)) = 0 := by
  intro cols
  induction cols with
  | nil => intro _; rfl
  | cons c rest ih =>
    intro h
    have hrest : col ∉ rest := fun hm => h (List.mem_cons_of_mem _ hm)
    have hcne : c ≠ col := fun he => h (he ▸ List.mem_cons_self c rest)
    by_cases hb : pyStrip (rowGetD row c) = ""
    · rw [List.filterMap_cons_some (by rw [if_pos hb]), List.count_cons]
      have hne : (missingMsg n c == missingMsg n col) = false :=
        beq_eq_false_iff_ne.mpr fun he => hcne (missingMsg_inj he)
      rw [hne]
      simpa using ih hrest
    · rw [List.filterMap_cons_none (by rw [if_neg hb])]
      exact ih hrest

/-- Counting `col`'s missing-field message in the required-field pass:
exactly one when the cell is blank, none otherwise. -/
lemma count_missing_filterMap (row : Row) (n : Nat) (col : String) :
    ∀ (cols : List String), cols.Nodup → col ∈ cols →
      ((cols.filterMap fun c =>
          if pyStrip (rowGetD row c) = "" then some (missingMsg n c)
          else none).count (missingMsg n col)) =
        if pyStrip (rowGetD row col) = "" then 1 else 0 := by
  intro cols
  induction cols with
  | nil => intro _ hm; cases hm
  | cons c rest ih =>
    intro hnd hmem
    obtain ⟨hnotin, hndr⟩ := List.nodup_cons.mp hnd
    rcases List.mem_cons.mp hmem with rfl | hm
    · by_cases hb : pyStrip (rowGetD row col) = ""
      · rw [List.filterMap_cons_some (by rw [if_pos hb]), List.count_cons,
          count_missing_zero_of_not_mem row n col rest hnotin]
        simp [hb]
      · rw [List.filterMap_cons_none (by rw [if_neg hb]),
          count_missing_zero_of_not_mem row n col rest hnotin, if_neg hb]
    · have hcne : c ≠ col := fun he => hnotin (he ▸ hm)
      by_cases hb : pyStrip (rowGetD row c) = ""
      · rw [List.filterMap_cons_some (by rw [if_pos hb]), List.count_cons]
        have hne : (missingMsg n c == missingMsg n col) = false :=
          beq_eq_false_iff_ne.mpr fun he => hcne (missingMsg_inj he)
        rw [hne, ih hndr hm]
        simp
      · rw [List.filterMap_cons_none (by rw [if_neg hb])]
        exact ih hndr hm

/-- No SKU-pass message is ever a missing-field message. -/
lemma missingMsg_not_in_skuErrors (row : Row) (n : Nat) (col : String)
    (sku_names : List String) :
    missingMsg n col ∉ (sku_names.map (skuCellErrors n row)).flatten := by
  intro hmem
  rcases List.mem_flatten.mp hmem with ⟨l, hl, hx⟩
  rcases List.mem_map.mp hl with ⟨sku, _, rfl⟩
  unfold skuCellErrors at hx
  by_cases hb : pyStrip (rowGetD row sku) = ""
  · rw [if_pos hb] at hx
    cases hx
  · rw [if_neg hb] at hx
    cases hq : pyInt (pyStrip (rowGetD row sku)) with
    | some q =>
      simp only [hq] at hx
      by_cases h0 : q < 0
      · rw [if_pos h0] at hx
        exact missingMsg_ne_negQtyMsg n col sku (List.mem_singleton.mp hx)
      · rw [if_neg h0] at hx
        cases hx
    | none =>
      simp only [hq] at hx
      exact missingMsg_ne_nonIntMsg n col (pyStrip (rowGetD row sku)) sku
        (List.mem_singleton.mp hx)

/-- C6: for every required column, the error list of `validate_row`
contains the `Row {n}: missing required field '{col}'` message exactly
once when that column is blank after trimming, and not at all otherwise
(the message itself names both the row number and the column). -/
theorem missing_field_message_count (row : Row) (n : Nat)
    (sku_names : List String) (col : String)
    (hcol : col ∈ REQUIRED_ADDRESS_COLUMNS) :
    (validate_row row n sku_names).count (missingMsg n col) =
      if pyStrip (rowGetD row col) = "" then 1 else 0 := by
  unfold validate_row
  rw [List.count_append, List.count_append]
  rw [count_missing_filterMap row n col REQUIRED_ADDRESS_COLUMNS
    (by decide) hcol]
  rw [List.count_eq_zero.mpr (missingMsg_not_in_skuErrors row n col sku_names)]
  have hC : (if sku_names.any (skuHasItem row) then ([] : List String)
      else [noItemsMsg n]).count (missingMsg n col) = 0 := by
    by_cases ha : sku_names.any (skuHasItem row)
    · rw [if_pos ha]; rfl
    · rw [if_neg ha]
      exact List.count_eq_zero.mpr fun hm =>
        missingMsg_ne_noItemsMsg n col (List.mem_singleton.mp hm)
  rw [hC]
  omega

/-- Witness for C6: the blank-city fixture row yields exactly one
missing-`city` message. -/
theorem missing_field_message_count_witness :
    (validate_row blankCityRow 3 skus12).count (missingMsg 3 "city") = 1 := by
  rw [missing_field_message_count blankCityRow 3 skus12 "city" (by decide)]
  decide

/-! ### C9 -/

/-- The element at index `i` of a list survives filtering at the position
given by counting earlier elements that satisfy the predicate. -/
lemma filter_getElem_countP {α : Type _} (p : α → Bool) :
    ∀ (l : List α) (i : Nat) (hi : i < l.length),
      p (l.get ⟨i, hi⟩) = true →
      (l.filter p)[(l.take i).countP p]? = some (l.get ⟨i, hi⟩) := by
  intro l
  induction l with
  | nil => intro i hi; exact absurd hi (Nat.not_lt_zero i)
  | cons a l ih =>
    intro i hi hp
    cases i with
    | zero =>
      have hp' : p a = true := hp
      rw [List.filter_cons_of_pos hp']
      simp
    | succ j =>
      have hj : j < l.length := Nat.lt_of_succ_lt_succ hi
      rw [List.take_succ_cons, List.countP_cons]
      by_cases hpa : p a = true
      · rw [List.filter_cons_of_pos hpa]
        simp only [hpa, if_true]
        rw [List.getElem?_cons_succ]
        exact ih j hj hp
      · rw [List.filter_cons_of_neg hpa]
        simp only [hpa, if_false]
        exact ih j hj hp

/-- Splitting a prefix into kept and dropped rows. -/
lemma countP_not_add {α : Type _} (p : α → Bool) :
    ∀ (l : List α), l.countP p + l.countP (fun a => !(p a)) = l.length := by
  intro l
  induction l with
  | nil => rfl
  | cons a l ih =>
    rw [List.countP_cons, List.countP_cons, List.length_cons]
    cases hpa : p a <;> simp <;> omega

/-- Every result the send loop produces carries the row number of the
pair it came from. -/
lemma sendLoop_row_numbers (sku_names tags : List String)
    (net : Nat → SendOutcome) :
    ∀ (pairs : List (Nat × Row)) (rs : List RunResult) (s f : Nat),
      sendLoop sku_names tags net pairs = some (rs, s, f) →
      ∀ (j : Nat) (hj : j < rs.length) (hj' : j < pairs.length),
        (rs.get ⟨j, hj⟩).row = (pairs.get ⟨j, hj'⟩).1 := by
  intro pairs
  induction pairs with
  | nil =>
    intro rs s f h j hj hj'
    exact absurd hj' (Nat.not_lt_zero j)
  | cons hd tl ih =>
    intro rs s f h j hj hj'
    obtain ⟨idx, row⟩ := hd
    simp only [sendLoop, Option.bind_eq_bind, Option.bind_eq_some,
      Option.some.injEq] at h
    obtain ⟨email, _, pl, _, r0, hr0, ⟨rs', s', f'⟩, hrec, heq⟩ := h
    have heq' := heq.symm
    cases heq'
    cases j with
    | zero =>
      have hrow : r0.row = idx := by
        cases ho : net idx with
        | success b => rw [ho] at hr0; cases hr0; rfl
        | httpError c p r => rw [ho] at hr0; cases hr0; rfl
        | urlError r => rw [ho] at hr0; cases hr0; rfl
        | crash m => rw [ho] at hr0; exact Option.noConfusion hr0
      exact hrow
    | succ k =>
      exact ih rs' s' f' hrec k (Nat.lt_of_succ_lt_succ hj)
        (Nat.lt_of_succ_lt_succ hj')

/-- C9: the k-th retained row (after filtering out blank-email rows) is
numbered `k + 2` — both in the enumeration handed to `validate_row` and
in the `row` field of the k-th `RunResult` — and that number equals the
row's actual file line number `i + 2` (data row index `i`) exactly when
no filtered-out row precedes it in the file. -/
theorem retained_row_numbering (csvRows : List Row) (i : Nat)
    (hi : i < csvRows.length)
    (hkeep : keepRow (csvRows.get ⟨i, hi⟩) = true) :
    (enumRows (retainedRows csvRows))[(csvRows.take i).countP keepRow]? =
      some (2 + (csvRows.take i).countP keepRow, csvRows.get ⟨i, hi⟩) ∧
    (∀ (sku_names tags : List String) (net : Nat → SendOutcome)
        (rs : List RunResult) (s f : Nat),
      sendLoop sku_names tags net (enumRows (retainedRows csvRows)) =
        some (rs, s, f) →
      ∀ (j : Nat) (hj : j < rs.length), (rs.get ⟨j, hj⟩).row = j + 2) ∧
    (2 + (csvRows.take i).countP keepRow = i + 2 ↔
      (csvRows.take i).countP (fun r => !(keepRow r)) = 0) := by
  refine ⟨?_, ?_, ?_⟩
  · rw [enumRows, List.getElem?_enumFrom, retainedRows,
      filter_getElem_countP keepRow csvRows i hi hkeep]
    rfl
  · intro sku_names tags net rs s f h j hj
    have hlen : rs.length = (enumRows (retainedRows csvRows)).length :=
      (sendLoop_counts sku_names tags net _ rs s f h).2
    have hj' : j < (enumRows (retainedRows csvRows)).length := hlen ▸ hj
    rw [sendLoop_row_numbers sku_names tags net _ rs s f h j hj hj']
    have hj'' : j < (retainedRows csvRows).length := by
      rw [enumRows, List.enumFrom_length] at hj'
      exact hj'
    have hX : (enumRows (retainedRows csvRows)).get ⟨j, hj'⟩ =
        (2 + j, (retainedRows csvRows).get ⟨j, hj''⟩) :=
      List.getElem_enumFrom (retainedRows csvRows) 2 j hj'
    rw [hX]
    exact Nat.add_comm 2 j
  · have hsum := countP_not_add keepRow (csvRows.take i)
    have hlen : (csvRows.take i).length = i := by
      rw [List.length_take]
      exact Nat.min_eq_left (Nat.le_of_lt hi)
    rw [hlen] at hsum
    omega

/-- CSV data rows whose first row is filtered out (blank email) and whose
second row is retained. -/
def skipFirstRows : List Row := [[("email", some "  ")], goodRow]

/-- Witness for C9: the retained row sits at data index 1 (file line 3)
but is numbered 2; the numbering matches the file line exactly when no
dropped row precedes, which fails here. -/
theorem retained_row_numbering_witness :
    (enumRows (retainedRows skipFirstRows))[(skipFirstRows.take 1).countP
        keepRow]? =
      some (2 + (skipFirstRows.take 1).countP keepRow,
        skipFirstRows.get ⟨1, by decide⟩) ∧
    (∀ (sku_names tags : List String) (net : Nat → SendOutcome)
        (rs : List RunResult) (s f : Nat),
      sendLoop sku_names tags net (enumRows (retainedRows skipFirstRows)) =
        some (rs, s, f) →
      ∀ (j : Nat) (hj : j < rs.length), (rs.get ⟨j, hj⟩).row = j + 2) ∧
    (2 + (skipFirstRows.take 1).countP keepRow = 1 + 2 ↔
      (skipFirstRows.take 1).countP (fun r => !(keepRow r)) = 0) :=
  retained_row_numbering skipFirstRows 1 (by decide) (by decide)

end MailCannon
